import Mathlib

/-!
Verification development for the qualtiva-website-tests repository.

The repository is a Playwright end-to-end test suite plus operator scripts.
We shallowly embed the repository-owned logic:

* `defineConfig` — the CI-conditioned fields of `playwright.config.js`;
* `globalSetupStrict` / `globalSetupTolerant` — the two global-setup
  variants (health-check navigation, storage-state save, finally-close);
* `globalTeardown` — the summary object written to
  `test-results/summary.json`;
* `runSh` / `runPs1` — the operator scripts' dispatch behavior;
* `runUploader` and its helpers — `scripts/aqa-post-results.ps1`.

External effects (browser navigation, HTTP, the file system) are modeled by
explicit oracles: a `SetupWorld` of success/failure bits for the awaited
setup steps, a `FileInfo list` for the enumerated result files, and a
`net : FileInfo → PostResult` function giving each file's HTTP outcome.
Timestamps are integers in seconds, so the PowerShell
`(Get-Date).AddHours(-Hours)` cutoff becomes `startTime - hours * 3600`.
-/

namespace Qualtiva

/-! ### playwright.config.js -/

/-- JavaScript truthiness of an environment variable read from
`process.env`: an absent variable is `undefined` (falsy) and the empty
string is falsy; every other string is truthy. -/
def envTruthy : Option String → Bool
  | none => false
  | some v => v ≠ ""

/-- The CI-dependent fields of the object passed to `defineConfig` in
`playwright.config.js`. `workers = none` models leaving the field
`undefined`, i.e. the framework default. -/
structure PlaywrightConfig where
  fullyParallel : Bool
  forbidOnly : Bool
  retries : Nat
  workers : Option Nat
  deriving Repr, DecidableEq

/-- `playwright.config.js` lines 5-8: `fullyParallel: true`,
`forbidOnly: !!process.env.CI`, `retries: process.env.CI ? 2 : 0`,
`workers: process.env.CI ? 1 : undefined`. -/
def defineConfig (ciVar : Option String) : PlaywrightConfig :=
  { fullyParallel := true
    forbidOnly := envTruthy ciVar
    retries := if envTruthy ciVar then 2 else 0
    workers := if envTruthy ciVar then some 1 else none }

/-! ### global-setup.js (two variants)

Both variants launch a browser, create a context and a page, then run a
try/catch/finally whose finally closes the browser.  `SetupWorld` fixes
which awaited steps succeed in a given execution; browser launch success
is the ambient assumption (a failed launch never reaches any of this
code).  `contextOk` and `pageOk` are the `browser.newContext()` /
`context.newPage()` calls, which happen BEFORE the try block; `navOk`
collapses `page.goto` + `waitForLoadState` + `title` (the health check);
`storageOk` is `context.storageState({...})`. -/

structure SetupWorld where
  contextOk : Bool
  pageOk : Bool
  navOk : Bool
  storageOk : Bool
  deriving Repr, DecidableEq

/-- Observable outcome of a global-setup execution: whether the function
rejected (threw), whether a `console.warn` was emitted, and whether
`browser.close()` ran before control left the function. -/
structure SetupOutcome where
  threw : Bool
  warned : Bool
  browserClosed : Bool
  deriving Repr, DecidableEq

/-- Strict global-setup variant (targets `https://dev.analytiqa.cloud`):
the health check runs directly in the outer try; any failure is logged
with `console.error` and rethrown; the finally closes the browser.
Context/page creation precedes the try, so a failure there propagates
without reaching the finally. -/
def globalSetupStrict (w : SetupWorld) : SetupOutcome :=
  if !w.contextOk then { threw := true, warned := false, browserClosed := false }
  else if !w.pageOk then { threw := true, warned := false, browserClosed := false }
  else if !w.navOk then { threw := true, warned := false, browserClosed := true }
  else if !w.storageOk then { threw := true, warned := false, browserClosed := true }
  else { threw := false, warned := false, browserClosed := true }

/-- Tolerant global-setup variant (targets
`https://www-dev.analytiqa.cloud/`): the health check sits in an inner
try whose catch logs a `console.warn` and proceeds; the outer
try/catch/finally then saves storage state and closes the browser, and
only a storage-state failure is rethrown.  Context/page creation still
precedes the try. -/
def globalSetupTolerant (w : SetupWorld) : SetupOutcome :=
  if !w.contextOk then { threw := true, warned := false, browserClosed := false }
  else if !w.pageOk then { threw := true, warned := false, browserClosed := false }
  else
    if !w.storageOk then { threw := true, warned := !w.navOk, browserClosed := true }
    else { threw := false, warned := !w.navOk, browserClosed := true }

/-! ### global-teardown.js -/

/-- The summary object built by `globalTeardown` (lines 18-42 of the
teardown file). -/
structure TeardownSummary where
  testRun : String
  project : String
  browsers : List String
  totalBrowsers : Nat
  testCategories : List String
  deriving Repr, DecidableEq

/-- `globalTeardown`: after deleting `global-state.json` it serializes a
summary to `test-results/summary.json`.  The JS function receives only
the config and looks at no run results; we surface that by giving the
model an extra argument of arbitrary type (whatever state the run left
behind) which the body ignores, exactly as the source does.  The result
is the path written to, paired with the summary object. -/
def globalTeardown {α : Type} (now : String) (_runState : α) : String × TeardownSummary :=
  ("test-results/summary.json",
   { testRun := now
     project := "Qualtiva Solutions Website Tests"
     browsers := ["chromium", "firefox", "webkit", "Mobile Chrome",
                  "Mobile Safari", "iPad", "Edge", "Low-end Device"]
     totalBrowsers := 8
     testCategories := ["Home Page", "Navigation", "Contact Forms",
                        "Accessibility", "Performance", "Web Build Best Practices",
                        "Cross-browser Compatibility", "Mobile Responsiveness"] })

/-! ### Operator scripts: run.sh-style bash script and run.ps1 -/

/-- The externally visible action an operator script ends in.
`errorExit` is the script aborting with the given exit code before
reaching its intended command (run.sh runs under `set -e`). -/
inductive ShellAction where
  | setup
  | runNpm (script : String)
  | playwrightTest (args : List String)
  | errorExit (code : Nat)
  | showReport
  | warnNoReport
  | showHelp
  deriving Repr, DecidableEq

/-- Bash `"${1:-help}"`: an absent or empty first argument becomes
`help`. -/
def firstArgOrHelp : Option String → String
  | none => "help"
  | some s => if s = "" then "help" else s

/-- The bash runner's `case "${1:-help}"` dispatch (the `run_tests`
calls are the `npm run <script>` they perform; `ci` invokes
`npx playwright test --reporter=html,junit,json`; `report` checks for
the `playwright-report` directory; `"help"|*` shows the help text).
The `codegen` case is broken: its body runs
`local codegen_url="${BASE_URL:-...}"` at top level, outside any
function, which is a shell error, and under the script's `set -e` that
aborts the script with exit code 1 before `npx playwright codegen` is
reached — so neither the codegen launch nor the BASE_URL default
expansion ever happens.  BASE_URL itself is only exported through to
the runner's environment, hence the unused first parameter. -/
def runSh (_baseUrl : Option String) (reportDirExists : Bool)
    (arg : Option String) : ShellAction :=
  let a := firstArgOrHelp arg
  if a = "setup" then ShellAction.setup
  else if a = "all" then ShellAction.runNpm "test:all-browsers"
  else if a = "desktop" then ShellAction.runNpm "test:desktop"
  else if a = "mobile" then ShellAction.runNpm "test:mobile"
  else if a = "performance" then ShellAction.runNpm "test:performance"
  else if a = "accessibility" then ShellAction.runNpm "test:accessibility"
  else if a = "best-practices" then ShellAction.runNpm "test:best-practices"
  else if a = "cross-browser" then ShellAction.runNpm "test:cross-browser"
  else if a = "mobile-responsive" then ShellAction.runNpm "test:mobile-responsive"
  else if a = "ci" then ShellAction.playwrightTest ["--reporter=html,junit,json"]
  else if a = "codegen" then ShellAction.errorExit 1
  else if a = "report" then
    if reportDirExists then ShellAction.showReport else ShellAction.warnNoReport
  else ShellAction.showHelp

/-- `run.ps1` has no param block and never inspects its arguments: it
creates `junit-results`, sets the two JUnit environment variables, and
unconditionally runs `npx playwright test --project=chromium --quiet`. -/
def runPs1 (_arg : Option String) : ShellAction :=
  ShellAction.playwrightTest ["--project=chromium", "--quiet"]

/-- The sub-commands the bash runner's help text documents. -/
def knownCommands : List String :=
  ["all", "desktop", "mobile", "performance", "accessibility", "best-practices",
   "cross-browser", "mobile-responsive", "ci", "codegen", "setup", "report", "help"]

/-! ### scripts/aqa-post-results.ps1

Timestamps (`startTime`, `lastWriteTime`) are integers in seconds, so
`(Get-Date).AddHours(-$Hours)` becomes `startTime - hours * 3600`. -/

/-- The three environment variables the uploader reads. `none` models an
unset variable (`Test-Path "env:$var"` false). -/
structure UploaderEnv where
  aqaUser : Option String
  aqaPassword : Option String
  aqaEndpoint : Option String
  deriving Repr, DecidableEq

/-- The script's `param(...)` block. -/
structure UploaderParams where
  resultsDir : String
  fileFilter : String
  resultFormat : String
  engine : String
  hours : Int
  tags : String
  team : String
  project : String
  application : String
  product : String
  environment : String
  deriving Repr, DecidableEq

/-- The default values of the `param(...)` block. -/
def defaultUploaderParams : UploaderParams :=
  { resultsDir := "./test-results"
    fileFilter := "*results.xml"
    resultFormat := "junit"
    engine := "selenium"
    hours := 72
    tags := ""
    team := ""
    project := ""
    application := ""
    product := ""
    environment := "" }

/-- One file returned by `Get-ChildItem` over the join of the results
directory and the file pattern, with its name, last-write time and raw
XML content (what `Get-Content -Raw` yields). -/
structure FileInfo where
  name : String
  lastWriteTime : Int
  xmlContent : String
  deriving Repr, DecidableEq

/-- The request splatted into `Invoke-WebRequest`. The credential pair
models the `PSCredential` built from `AQA_USER` and `AQA_PASSWORD`
(basic authentication with `UseBasicParsing`). -/
structure HttpRequest where
  uri : String
  method : String
  headers : List (String × String)
  body : String
  credUser : String
  credPassword : String
  useBasicParsing : Bool
  deriving Repr, DecidableEq

/-- How the HTTP layer answers one POST: either a response object came
back (status code and body, no exception), or the request threw, in
which case `$_.Exception.Response.StatusCode.value__` may be null
(`none`). -/
inductive PostResult where
  | response (status : Int) (respBody : String)
  | thrown (status : Option Int) (msg : String)
  deriving Repr, DecidableEq

/-- The observable per-file log/IO events of the loop body, plus the
final `Done.` line. `posted` marks that an HTTP POST was issued, and
carries the request it was issued with. -/
inductive UploadEvent where
  | skipped (name : String)
  | posted (name : String) (req : HttpRequest)
  | success (name : String) (status : Int)
  | unexpected (name : String) (status : Int)
  | failed (name : String) (status : Option Int)
  | hint404
  | doneMsg
  deriving Repr, DecidableEq

/-- Lines 153-190 of the script: the header table, the credential and
the request parameters for one file body. -/
def buildRequest (p : UploaderParams) (user password endpoint : String)
    (fileBody : String) : HttpRequest :=
  { uri := endpoint
    method := "Post"
    headers :=
      [("Content-Type", "application/xml"),
       ("Test-Engine-Result-Format", p.resultFormat),
       ("Test-Engine", p.engine),
       ("Tags", p.tags),
       ("aqa-team", p.team),
       ("aqa-project", p.project),
       ("aqa-application", p.application),
       ("aqa-product", p.product),
       ("aqa-environment", p.environment)]
    body := fileBody
    credUser := user
    credPassword := password
    useBasicParsing := true }

/-- One iteration of the `foreach ($file in $files)` loop (lines
142-230): skip when `LastWriteTime -lt $cutoffTime`; otherwise POST and
branch on the outcome — a 2xx response logs success, any other
response without an exception logs `Unexpected status`, and a thrown
request is caught, logged as failed (with a 404 hint when the exception
status is 404), after which the iteration ends normally. -/
def processFile (p : UploaderParams) (user password endpoint : String)
    (cutoff : Int) (net : FileInfo → PostResult) (f : FileInfo) : List UploadEvent :=
  if f.lastWriteTime < cutoff then [UploadEvent.skipped f.name]
  else
    UploadEvent.posted f.name (buildRequest p user password endpoint f.xmlContent) ::
    match net f with
    | PostResult.response st _ =>
        if 200 ≤ st ∧ st < 300 then [UploadEvent.success f.name st]
        else [UploadEvent.unexpected f.name st]
    | PostResult.thrown st _ =>
        UploadEvent.failed f.name st ::
        (if st = some 404 then [UploadEvent.hint404] else [])

/-- The list `@('AQA_USER', 'AQA_PASSWORD', 'AQA_ENDPOINT')`. -/
def requiredEnvVars : List String := ["AQA_USER", "AQA_PASSWORD", "AQA_ENDPOINT"]

/-- `Test-Path "env:$var"` for the three variables the script can name. -/
def lookupEnv (e : UploaderEnv) : String → Option String
  | "AQA_USER" => e.aqaUser
  | "AQA_PASSWORD" => e.aqaPassword
  | "AQA_ENDPOINT" => e.aqaEndpoint
  | _ => none

/-- The `$missing` accumulation loop (lines 99-105): the required
variables, in declaration order, that are unset. -/
def missingEnvVars (e : UploaderEnv) : List String :=
  requiredEnvVars.filter (fun v => (lookupEnv e v).isNone)

/-- Result of a whole script run: `exit 1` with the missing-variable
message, `exit 1` for a missing results directory, `exit 0` after the
no-files warning, or normal completion with the loop's event trace. -/
inductive ScriptResult where
  | exitMissingEnv (missing : List String)
  | exitDirNotFound
  | exitNoFiles
  | completed (events : List UploadEvent)
  deriving Repr, DecidableEq

/-- The process exit code of each script outcome. -/
def exitCode : ScriptResult → Nat
  | ScriptResult.exitMissingEnv _ => 1
  | ScriptResult.exitDirNotFound => 1
  | ScriptResult.exitNoFiles => 0
  | ScriptResult.completed _ => 0

/-- The whole script, lines 97-232: check the three environment
variables (exit 1 naming every missing one), check the results
directory (exit 1), compute the cutoff once as start time minus the
Hours parameter, enumerate the matching files (`dirExists` and `files`
stand for what the file system returns), exit 0 with a warning when
none match, otherwise run the loop over every file with that one cutoff
and end with the `Done.` message. -/
def runUploader (e : UploaderEnv) (p : UploaderParams) (dirExists : Bool)
    (startTime : Int) (files : List FileInfo)
    (net : FileInfo → PostResult) : ScriptResult :=
  if missingEnvVars e ≠ [] then ScriptResult.exitMissingEnv (missingEnvVars e)
  else if !dirExists then ScriptResult.exitDirNotFound
  else
    let user := e.aqaUser.getD ""
    let password := e.aqaPassword.getD ""
    let endpoint := e.aqaEndpoint.getD ""
    let cutoff := startTime - p.hours * 3600
    if files.isEmpty then ScriptResult.exitNoFiles
    else
      ScriptResult.completed
        ((files.flatMap (processFile p user password endpoint cutoff net)) ++
         [UploadEvent.doneMsg])

/-! ### Claim theorems -/

/-- C1: every run of the global teardown that reaches the summary step
writes to `test-results/summary.json` a summary whose browser list is
exactly the fixed 8 profile names and whose category list is exactly
the fixed 8 test-category names, independent of the run's actual state:
for any two run states the summary is identical, and the two lists are
the hardcoded constants of length 8. -/
theorem teardown_summary_fixed_lists {α : Type} (now : String) (r₁ r₂ : α) :
    globalTeardown now r₁ = globalTeardown now r₂ ∧
    (globalTeardown now r₁).1 = "test-results/summary.json" ∧
    (globalTeardown now r₁).2.browsers =
      ["chromium", "firefox", "webkit", "Mobile Chrome",
       "Mobile Safari", "iPad", "Edge", "Low-end Device"] ∧
    (globalTeardown now r₁).2.browsers.length = 8 ∧
    (globalTeardown now r₁).2.testCategories =
      ["Home Page", "Navigation", "Contact Forms", "Accessibility",
       "Performance", "Web Build Best Practices",
       "Cross-browser Compatibility", "Mobile Responsiveness"] ∧
    (globalTeardown now r₁).2.testCategories.length = 8 :=
  ⟨rfl, rfl, rfl, rfl, rfl, rfl⟩

/-- C2 counterexample: an execution of the tolerant global setup in
which the health-check navigation fails and the subsequent
storage-state save also fails does NOT return normally: the navigation
failure is warned about, yet the outer catch rethrows the storage
error, so the function throws. -/
theorem setup_nav_failure_can_still_throw :
    (globalSetupTolerant ⟨true, true, false, false⟩).warned = true ∧
    (globalSetupTolerant ⟨true, true, false, false⟩).threw = true := by
  decide

/-- C2 amended: in every execution of the tolerant global setup in
which context and page creation succeed and the health-check
navigation fails, the navigation failure is caught and logged as a
warning and the run proceeds past the health check; the setup function
returns normally provided the subsequent storage-state save succeeds —
a storage-state failure is rethrown even though the navigation failure
itself was tolerated. -/
theorem setup_navigation_failure_tolerated (w : SetupWorld)
    (hctx : w.contextOk = true) (hpage : w.pageOk = true)
    (hnav : w.navOk = false) :
    (globalSetupTolerant w).warned = true ∧
    (w.storageOk = true → (globalSetupTolerant w).threw = false) := by
  cases hs : w.storageOk <;>
    simp [globalSetupTolerant, hctx, hpage, hnav, hs]

/-- C2 amended witness: the concrete execution in which only the
navigation fails logs the warning and returns normally. -/
theorem setup_navigation_failure_tolerated_witness :
    (globalSetupTolerant ⟨true, true, false, true⟩).warned = true ∧
    ((⟨true, true, false, true⟩ : SetupWorld).storageOk = true →
      (globalSetupTolerant ⟨true, true, false, true⟩).threw = false) :=
  setup_navigation_failure_tolerated ⟨true, true, false, true⟩ rfl rfl rfl

/-- C8: the configuration enables fully parallel execution always, sets
retries to 2 exactly when the CI variable is truthy and 0 exactly when
it is not, and pins workers to 1 exactly when CI is truthy, leaving the
framework default (`undefined`) exactly when it is not. -/
theorem config_ci_retries_workers (ci : Option String) :
    (defineConfig ci).fullyParallel = true ∧
    ((defineConfig ci).retries = 2 ↔ envTruthy ci = true) ∧
    ((defineConfig ci).retries = 0 ↔ envTruthy ci = false) ∧
    ((defineConfig ci).workers = some 1 ↔ envTruthy ci = true) ∧
    ((defineConfig ci).workers = none ↔ envTruthy ci = false) := by
  unfold defineConfig
  cases h : envTruthy ci <;> simp

/-- C9 counterexample: in both global-setup variants, an execution in
which the browser launches but `browser.newContext()` fails is an error
path on which the browser is never closed, because context and page
creation happen before the try/finally block. -/
theorem setup_close_not_on_every_error_path :
    (globalSetupTolerant ⟨false, true, true, true⟩).threw = true ∧
    (globalSetupTolerant ⟨false, true, true, true⟩).browserClosed = false ∧
    (globalSetupStrict ⟨false, true, true, true⟩).threw = true ∧
    (globalSetupStrict ⟨false, true, true, true⟩).browserClosed = false := by
  decide

/-- C9 amended: in every execution of either global-setup variant in
which the browser launch AND the context and page creation succeed, the
browser is closed before the routine returns, on the normal path and on
every error path, the close being performed in a finally block; a
context- or page-creation failure occurs before the try block and
leaves the browser unclosed. -/
theorem setup_browser_closed_in_finally (w : SetupWorld)
    (hctx : w.contextOk = true) (hpage : w.pageOk = true) :
    (globalSetupStrict w).browserClosed = true ∧
    (globalSetupTolerant w).browserClosed = true := by
  cases w with
  | mk c pg n s =>
    subst hctx; subst hpage
    cases n <;> cases s <;> decide

/-- C9 amended witness: a concrete error-path execution (navigation and
storage both fail) in which both variants still close the browser. -/
theorem setup_browser_closed_in_finally_witness :
    (globalSetupStrict ⟨true, true, false, false⟩).browserClosed = true ∧
    (globalSetupTolerant ⟨true, true, false, false⟩).browserClosed = true :=
  setup_browser_closed_in_finally ⟨true, true, false, false⟩ rfl rfl

/-- C6 counterexample: `run.ps1` does not accept the documented
sub-commands: given `desktop` it still runs the chromium project rather
than dispatching the desktop script, and given no argument or an
unrecognized one it does not show the help text. -/
theorem runPs1_no_subcommand_dispatch :
    runPs1 (some "desktop") = ShellAction.playwrightTest ["--project=chromium", "--quiet"] ∧
    runPs1 (some "desktop") ≠ ShellAction.runNpm "test:desktop" ∧
    runPs1 none ≠ ShellAction.showHelp ∧
    runPs1 (some "no-such-command") ≠ ShellAction.showHelp := by
  refine ⟨rfl, ?_, ?_, ?_⟩ <;> decide

/-- C6 amended: the bash run script accepts a sub-command from the set
{all, desktop, mobile, performance, accessibility, best-practices,
cross-browser, mobile-responsive, ci, setup, report, help} and
dispatches it to the external test runner; the BASE_URL environment
variable is only exported to the runner's environment; an absent,
empty or unrecognized argument shows the help text. The codegen
sub-command is broken: run.sh uses `local` outside a function, which
under `set -e` aborts the script with exit code 1 before codegen is
launched. The PowerShell run.ps1 accepts no sub-command: it always
runs the chromium project. -/
theorem run_scripts_dispatch (b : Option String) (d : Bool) (a : String)
    (hno : a ∉ knownCommands) :
    runSh b d none = ShellAction.showHelp ∧
    runSh b d (some "") = ShellAction.showHelp ∧
    runSh b d (some a) = ShellAction.showHelp ∧
    runSh b d (some "help") = ShellAction.showHelp ∧
    runSh b d (some "setup") = ShellAction.setup ∧
    runSh b d (some "all") = ShellAction.runNpm "test:all-browsers" ∧
    runSh b d (some "desktop") = ShellAction.runNpm "test:desktop" ∧
    runSh b d (some "mobile") = ShellAction.runNpm "test:mobile" ∧
    runSh b d (some "performance") = ShellAction.runNpm "test:performance" ∧
    runSh b d (some "accessibility") = ShellAction.runNpm "test:accessibility" ∧
    runSh b d (some "best-practices") = ShellAction.runNpm "test:best-practices" ∧
    runSh b d (some "cross-browser") = ShellAction.runNpm "test:cross-browser" ∧
    runSh b d (some "mobile-responsive") = ShellAction.runNpm "test:mobile-responsive" ∧
    runSh b d (some "ci") = ShellAction.playwrightTest ["--reporter=html,junit,json"] ∧
    runSh b d (some "codegen") = ShellAction.errorExit 1 ∧
    runSh b d (some "report") =
      (if d then ShellAction.showReport else ShellAction.warnNoReport) ∧
    (∀ x, runPs1 x = ShellAction.playwrightTest ["--project=chromium", "--quiet"]) := by
  have hlist : a ≠ "all" ∧ a ≠ "desktop" ∧ a ≠ "mobile" ∧ a ≠ "performance" ∧
      a ≠ "accessibility" ∧ a ≠ "best-practices" ∧ a ≠ "cross-browser" ∧
      a ≠ "mobile-responsive" ∧ a ≠ "ci" ∧ a ≠ "codegen" ∧ a ≠ "setup" ∧
      a ≠ "report" ∧ a ≠ "help" := by
    simpa [knownCommands, not_or] using hno
  obtain ⟨h₁, h₂, h₃, h₄, h₅, h₆, h₇, h₈, h₉, h₁₀, h₁₁, h₁₂, h₁₃⟩ := hlist
  refine ⟨rfl, rfl, ?_, rfl, rfl, rfl, rfl, rfl, rfl, rfl, rfl, rfl, rfl, rfl, rfl, rfl,
    fun _ => rfl⟩
  by_cases he : a = ""
  · subst he; rfl
  · simp [runSh, firstArgOrHelp, he, h₁, h₂, h₃, h₄, h₅, h₆, h₇, h₈, h₉, h₁₀, h₁₁, h₁₂, h₁₃]

/-- C6 amended witness: at an argument outside the command set the bash
script shows the help and run.ps1 still runs chromium. -/
theorem run_scripts_dispatch_witness :
    runSh none true (some "bogus") = ShellAction.showHelp ∧
    runPs1 (some "bogus") = ShellAction.playwrightTest ["--project=chromium", "--quiet"] :=
  ⟨(run_scripts_dispatch none true "bogus" (by decide)).2.2.1,
   (run_scripts_dispatch none true "bogus" (by decide)).2.2.2.2.2.2.2.2.2.2.2.2.2.2.2.2 (some "bogus")⟩

/-- C3: on any completing run of the uploader, the cutoff is computed
once, before the loop, as the start time minus the Hours parameter
(whose declared default is 72), that one cutoff is used for every file,
and a matched file is skipped — with no POST issued for it — exactly
when its last-write time is strictly earlier than the cutoff. -/
theorem uploader_age_cutoff (e : UploaderEnv) (p : UploaderParams) (dirExists : Bool)
    (startTime : Int) (files : List FileInfo) (net : FileInfo → PostResult)
    (henv : missingEnvVars e = []) (hdir : dirExists = true)
    (hne : files.isEmpty = false) :
    runUploader e p dirExists startTime files net =
      ScriptResult.completed
        ((files.flatMap (processFile p (e.aqaUser.getD "") (e.aqaPassword.getD "")
          (e.aqaEndpoint.getD "") (startTime - p.hours * 3600) net)) ++
         [UploadEvent.doneMsg]) ∧
    defaultUploaderParams.hours = 72 ∧
    ∀ f ∈ files,
      ((∃ req, UploadEvent.posted f.name req ∈
          processFile p (e.aqaUser.getD "") (e.aqaPassword.getD "")
            (e.aqaEndpoint.getD "") (startTime - p.hours * 3600) net f) ↔
        ¬ f.lastWriteTime < startTime - p.hours * 3600) ∧
      (UploadEvent.skipped f.name ∈
          processFile p (e.aqaUser.getD "") (e.aqaPassword.getD "")
            (e.aqaEndpoint.getD "") (startTime - p.hours * 3600) net f ↔
        f.lastWriteTime < startTime - p.hours * 3600) := by
  refine ⟨by simp [runUploader, henv, hdir, hne], rfl, ?_⟩
  intro f _
  by_cases hlt : f.lastWriteTime < startTime - p.hours * 3600
  · constructor
    · simp [processFile, hlt]
    · simp [processFile, hlt]
  · constructor
    · simp only [hlt, iff_true, not_false_iff]
      exact ⟨buildRequest p (e.aqaUser.getD "") (e.aqaPassword.getD "")
        (e.aqaEndpoint.getD "") f.xmlContent, by simp [processFile, hlt]⟩
    · cases hnf : net f with
      | response st rb =>
        by_cases h2 : 200 ≤ st ∧ st < 300 <;> simp [processFile, hlt, hnf, h2]
      | thrown st m =>
        by_cases h4 : st = some 404 <;> simp [processFile, hlt, hnf, h4]

/-- C3 witness: with all environment variables set, a nonempty
directory, start time 0 and default parameters, a file last written
exactly at the cutoff is posted and a file one second older is
skipped. -/
theorem uploader_age_cutoff_witness :
    (∃ req, UploadEvent.posted "new.xml" req ∈
      processFile defaultUploaderParams "u" "pw" "ep" (0 - defaultUploaderParams.hours * 3600)
        (fun _ => PostResult.response 200 "") ⟨"new.xml", -259200, "x"⟩) ∧
    UploadEvent.skipped "old.xml" ∈
      processFile defaultUploaderParams "u" "pw" "ep" (0 - defaultUploaderParams.hours * 3600)
        (fun _ => PostResult.response 200 "") ⟨"old.xml", -259201, "x"⟩ := by
  have h := uploader_age_cutoff ⟨some "u", some "pw", some "ep"⟩ defaultUploaderParams true 0
    [⟨"new.xml", -259200, "x"⟩, ⟨"old.xml", -259201, "x"⟩]
    (fun _ => PostResult.response 200 "") (by decide) rfl rfl
  exact ⟨((h.2.2 ⟨"new.xml", -259200, "x"⟩ (by decide)).1).mpr (by decide),
         ((h.2.2 ⟨"old.xml", -259201, "x"⟩ (by decide)).2).mpr (by decide)⟩

/-- C4: for every HTTP response received without a thrown exception,
the uploader logs success exactly when the status code is at least 200
and below 300; any other such status is logged as unexpected, and
neither a per-file failure nor the 404 hint is emitted, so the post
does not count as failed. -/
theorem uploader_status_classification (p : UploaderParams)
    (user password endpoint : String) (cutoff : Int)
    (net : FileInfo → PostResult) (f : FileInfo) (st : Int) (rb : String)
    (hage : ¬ f.lastWriteTime < cutoff)
    (hnet : net f = PostResult.response st rb) :
    (UploadEvent.success f.name st ∈
        processFile p user password endpoint cutoff net f ↔ (200 ≤ st ∧ st < 300)) ∧
    (¬ (200 ≤ st ∧ st < 300) →
      UploadEvent.unexpected f.name st ∈
        processFile p user password endpoint cutoff net f) ∧
    (∀ s, UploadEvent.failed f.name s ∉
        processFile p user password endpoint cutoff net f) ∧
    UploadEvent.hint404 ∉ processFile p user password endpoint cutoff net f := by
  by_cases h2 : 200 ≤ st ∧ st < 300 <;> simp [processFile, hage, hnet, h2]

/-- C4 witness: a 204 response is classified as success and a 301
response without an exception is logged as unexpected, not failed. -/
theorem uploader_status_classification_witness :
    UploadEvent.success "a.xml" 204 ∈
      processFile defaultUploaderParams "u" "pw" "ep" (-1)
        (fun _ => PostResult.response 204 "") ⟨"a.xml", 0, "x"⟩ ∧
    UploadEvent.unexpected "b.xml" 301 ∈
      processFile defaultUploaderParams "u" "pw" "ep" (-1)
        (fun _ => PostResult.response 301 "") ⟨"b.xml", 0, "x"⟩ ∧
    UploadEvent.failed "b.xml" (some 301) ∉
      processFile defaultUploaderParams "u" "pw" "ep" (-1)
        (fun _ => PostResult.response 301 "") ⟨"b.xml", 0, "x"⟩ :=
  ⟨((uploader_status_classification defaultUploaderParams "u" "pw" "ep" (-1)
      (fun _ => PostResult.response 204 "") ⟨"a.xml", 0, "x"⟩ 204 ""
      (by decide) rfl).1).mpr (by decide),
   (uploader_status_classification defaultUploaderParams "u" "pw" "ep" (-1)
      (fun _ => PostResult.response 301 "") ⟨"b.xml", 0, "x"⟩ 301 ""
      (by decide) rfl).2.1 (by decide),
   (uploader_status_classification defaultUploaderParams "u" "pw" "ep" (-1)
      (fun _ => PostResult.response 301 "") ⟨"b.xml", 0, "x"⟩ 301 ""
      (by decide) rfl).2.2.1 (some 301)⟩

/-- C5: on any completing run, every per-file thrown HTTP request is
caught and logged as a failure for that file while the loop continues:
every matched file still contributes its own skipped-or-posted event,
the trace ends with the final Done message, and the script's exit code
is 0. -/
theorem uploader_continues_after_failures (e : UploaderEnv) (p : UploaderParams)
    (dirExists : Bool) (startTime : Int) (files : List FileInfo)
    (net : FileInfo → PostResult)
    (henv : missingEnvVars e = []) (hdir : dirExists = true)
    (hne : files.isEmpty = false) :
    ∃ evs, runUploader e p dirExists startTime files net = ScriptResult.completed evs ∧
      evs.getLast? = some UploadEvent.doneMsg ∧
      exitCode (runUploader e p dirExists startTime files net) = 0 ∧
      (∀ f ∈ files, UploadEvent.skipped f.name ∈ evs ∨
        ∃ req, UploadEvent.posted f.name req ∈ evs) ∧
      (∀ f ∈ files, ∀ st msg, net f = PostResult.thrown st msg →
        ¬ f.lastWriteTime < startTime - p.hours * 3600 →
        UploadEvent.failed f.name st ∈ evs) := by
  refine ⟨(files.flatMap (processFile p (e.aqaUser.getD "") (e.aqaPassword.getD "")
      (e.aqaEndpoint.getD "") (startTime - p.hours * 3600) net)) ++ [UploadEvent.doneMsg],
    by simp [runUploader, henv, hdir, hne], List.getLast?_concat _, ?_, ?_, ?_⟩
  · simp [runUploader, henv, hdir, hne, exitCode]
  · intro f hf
    by_cases hlt : f.lastWriteTime < startTime - p.hours * 3600
    · left
      exact List.mem_append_left _ (List.mem_flatMap.mpr ⟨f, hf, by simp [processFile, hlt]⟩)
    · right
      exact ⟨buildRequest p (e.aqaUser.getD "") (e.aqaPassword.getD "")
          (e.aqaEndpoint.getD "") f.xmlContent,
        List.mem_append_left _ (List.mem_flatMap.mpr ⟨f, hf, by simp [processFile, hlt]⟩)⟩
  · intro f hf st msg hnf hlt
    refine List.mem_append_left _ (List.mem_flatMap.mpr ⟨f, hf, ?_⟩)
    by_cases h4 : st = some 404 <;> simp [processFile, hlt, hnf, h4]

/-- C5 witness: a two-file batch whose first post throws still posts
the second file, logs the first as failed, and ends with Done at exit
code 0. -/
theorem uploader_continues_after_failures_witness :
    ∃ evs, runUploader ⟨some "u", some "pw", some "ep"⟩ defaultUploaderParams true 0
        [⟨"a.xml", 0, "x"⟩, ⟨"b.xml", 0, "y"⟩]
        (fun f => if f.name = "a.xml" then PostResult.thrown (some 500) "boom"
                  else PostResult.response 200 "") = ScriptResult.completed evs ∧
      evs.getLast? = some UploadEvent.doneMsg ∧
      exitCode (runUploader ⟨some "u", some "pw", some "ep"⟩ defaultUploaderParams true 0
        [⟨"a.xml", 0, "x"⟩, ⟨"b.xml", 0, "y"⟩]
        (fun f => if f.name = "a.xml" then PostResult.thrown (some 500) "boom"
                  else PostResult.response 200 "")) = 0 ∧
      UploadEvent.failed "a.xml" (some 500) ∈ evs ∧
      (∃ req, UploadEvent.posted "b.xml" req ∈ evs) := by
  obtain ⟨evs, h1, h2, h3, h4, h5⟩ :=
    uploader_continues_after_failures ⟨some "u", some "pw", some "ep"⟩
      defaultUploaderParams true 0 [⟨"a.xml", 0, "x"⟩, ⟨"b.xml", 0, "y"⟩]
      (fun f => if f.name = "a.xml" then PostResult.thrown (some 500) "boom"
                else PostResult.response 200 "") (by decide) rfl rfl
  refine ⟨evs, h1, h2, h3,
    h5 ⟨"a.xml", 0, "x"⟩ (by decide) (some 500) "boom" (by decide) (by decide), ?_⟩
  have h0 : runUploader ⟨some "u", some "pw", some "ep"⟩ defaultUploaderParams true 0
      [⟨"a.xml", 0, "x"⟩, ⟨"b.xml", 0, "y"⟩]
      (fun f => if f.name = "a.xml" then PostResult.thrown (some 500) "boom"
                else PostResult.response 200 "") =
      ScriptResult.completed
        [UploadEvent.posted "a.xml" (buildRequest defaultUploaderParams "u" "pw" "ep" "x"),
         UploadEvent.failed "a.xml" (some 500),
         UploadEvent.posted "b.xml" (buildRequest defaultUploaderParams "u" "pw" "ep" "y"),
         UploadEvent.success "b.xml" 200,
         UploadEvent.doneMsg] := by decide
  rw [h0] at h1
  injection h1 with he
  subst he
  exact ⟨buildRequest defaultUploaderParams "u" "pw" "ep" "y", by decide⟩

/-- C7: every POST the uploader issues goes to the AQA_ENDPOINT URL
with exactly the nine fixed headers (Content-Type: application/xml and
the eight metadata headers populated from the parameters), basic
authentication built from AQA_USER and AQA_PASSWORD, and the raw XML
file content as its body. -/
theorem uploader_request_contract (p : UploaderParams)
    (user password endpoint : String) (cutoff : Int)
    (net : FileInfo → PostResult) (f : FileInfo) (req : HttpRequest)
    (hmem : UploadEvent.posted f.name req ∈
      processFile p user password endpoint cutoff net f) :
    req.uri = endpoint ∧ req.method = "Post" ∧
    req.headers =
      [("Content-Type", "application/xml"),
       ("Test-Engine-Result-Format", p.resultFormat),
       ("Test-Engine", p.engine),
       ("Tags", p.tags),
       ("aqa-team", p.team),
       ("aqa-project", p.project),
       ("aqa-application", p.application),
       ("aqa-product", p.product),
       ("aqa-environment", p.environment)] ∧
    req.body = f.xmlContent ∧ req.credUser = user ∧
    req.credPassword = password ∧ req.useBasicParsing = true := by
  have hreq : req = buildRequest p user password endpoint f.xmlContent := by
    by_cases hlt : f.lastWriteTime < cutoff
    · simp [processFile, hlt] at hmem
    · cases hnf : net f with
      | response st rb =>
        by_cases h2 : 200 ≤ st ∧ st < 300 <;>
          simpa [processFile, hlt, hnf, h2] using hmem
      | thrown st m =>
        by_cases h4 : st = some 404 <;>
          simpa [processFile, hlt, hnf, h4] using hmem
  subst hreq
  exact ⟨rfl, rfl, rfl, rfl, rfl, rfl, rfl⟩

/-- C7 witness: the request actually issued for a concrete file under
the default parameters carries exactly the contract's endpoint,
method, headers, credentials and body. -/
theorem uploader_request_contract_witness :
    (buildRequest defaultUploaderParams "u" "pw" "ep" "x").uri = "ep" ∧
    (buildRequest defaultUploaderParams "u" "pw" "ep" "x").method = "Post" ∧
    (buildRequest defaultUploaderParams "u" "pw" "ep" "x").headers =
      [("Content-Type", "application/xml"),
       ("Test-Engine-Result-Format", defaultUploaderParams.resultFormat),
       ("Test-Engine", defaultUploaderParams.engine),
       ("Tags", defaultUploaderParams.tags),
       ("aqa-team", defaultUploaderParams.team),
       ("aqa-project", defaultUploaderParams.project),
       ("aqa-application", defaultUploaderParams.application),
       ("aqa-product", defaultUploaderParams.product),
       ("aqa-environment", defaultUploaderParams.environment)] ∧
    (buildRequest defaultUploaderParams "u" "pw" "ep" "x").body = "x" ∧
    (buildRequest defaultUploaderParams "u" "pw" "ep" "x").credUser = "u" ∧
    (buildRequest defaultUploaderParams "u" "pw" "ep" "x").credPassword = "pw" ∧
    (buildRequest defaultUploaderParams "u" "pw" "ep" "x").useBasicParsing = true :=
  uploader_request_contract defaultUploaderParams "u" "pw" "ep" (-1)
    (fun _ => PostResult.response 200 "") ⟨"a.xml", 0, "x"⟩
    (buildRequest defaultUploaderParams "u" "pw" "ep" "x") (by decide)

/-- C10: if any of AQA_USER, AQA_PASSWORD or AQA_ENDPOINT is unset the
script exits with code 1 reporting exactly the missing variables by
name, before any file enumeration, read or HTTP request (the result
carries no events); and if all are set but no file matches, it exits
with code 0 after a warning, posting nothing. -/
theorem uploader_env_guard_and_empty_set (e : UploaderEnv) (p : UploaderParams)
    (dirExists : Bool) (startTime : Int) (files : List FileInfo)
    (net : FileInfo → PostResult) :
    (missingEnvVars e ≠ [] →
      runUploader e p dirExists startTime files net =
        ScriptResult.exitMissingEnv (missingEnvVars e) ∧
      exitCode (runUploader e p dirExists startTime files net) = 1 ∧
      (∀ v, v ∈ missingEnvVars e ↔ v ∈ requiredEnvVars ∧ lookupEnv e v = none)) ∧
    (missingEnvVars e = [] → dirExists = true → files = [] →
      runUploader e p dirExists startTime files net = ScriptResult.exitNoFiles ∧
      exitCode (runUploader e p dirExists startTime files net) = 0) := by
  constructor
  · intro hmiss
    refine ⟨by simp [runUploader, hmiss], by simp [runUploader, hmiss, exitCode], ?_⟩
    intro v
    simp [missingEnvVars, List.mem_filter, Option.isNone_iff_eq_none]
  · intro hmiss hdir hfiles
    subst hdir; subst hfiles
    exact ⟨by simp [runUploader, hmiss], by simp [runUploader, hmiss, exitCode]⟩

/-- C10 witness: with AQA_USER and AQA_ENDPOINT unset the script exits
reporting exactly those two names; with all three set and no matching
file it exits via the no-files warning. -/
theorem uploader_env_guard_and_empty_set_witness :
    runUploader ⟨none, some "pw", none⟩ defaultUploaderParams true 0 []
      (fun _ => PostResult.response 200 "") =
      ScriptResult.exitMissingEnv ["AQA_USER", "AQA_ENDPOINT"] ∧
    runUploader ⟨some "u", some "pw", some "ep"⟩ defaultUploaderParams true 0 []
      (fun _ => PostResult.response 200 "") = ScriptResult.exitNoFiles := by
  constructor
  · have h := ((uploader_env_guard_and_empty_set ⟨none, some "pw", none⟩
      defaultUploaderParams true 0 [] (fun _ => PostResult.response 200 "")).1
      (by decide)).1
    simpa using h
  · exact ((uploader_env_guard_and_empty_set ⟨some "u", some "pw", some "ep"⟩
      defaultUploaderParams true 0 [] (fun _ => PostResult.response 200 "")).2
      (by decide) rfl rfl).1

end Qualtiva
